import Mathlib

/-!
Verification of the reward computation and distribution engine of the wiki
contribution token backend (`backend/src/services/token-economy-service.ts`,
`backend/src/services/rewards-service.ts`,
`backend/src/api/routes/rewards-routes.ts`, models in `backend/models/index.ts`).

The TypeScript code is shallowly embedded: JavaScript numbers holding token
amounts and multipliers become `ℚ`, integer point fields become `ℤ`,
timestamps become `ℤ`, database tables become lists of rows, and the external
Solana ledger becomes an oracle `String → Bool` telling whether the transfer
to a given wallet address succeeds.  `Math.floor` becomes `Int.floor` on `ℚ`
and `Math.round` becomes `fun q => ⌊q + 1/2⌋` (JavaScript rounds half toward
positive infinity).  A missing (`undefined`/`null`/empty) wallet address is
modelled as the empty string, which is exactly the falsy case of the source's
`if (!reward.walletAddress)` test.
-/

/-- Environment constant `WEEKLY_REWARD_POOL = 200000` from
`token-economy-service.ts`. -/
def WEEKLY_REWARD_POOL : ℚ := 200000

/-- Environment constant `MIN_TOKENS_PER_USER = 10` from
`token-economy-service.ts`. -/
def MIN_TOKENS_PER_USER : ℤ := 10

/-- Constant `TOKEN_DECIMALS = 9` from `token-economy-service.ts`. -/
def TOKEN_DECIMALS : ℕ := 9

/-- A row of the `Contribution` table joined with its `User`, as fetched by
`calculateWeeklyRewards` / `calculateRewards`: the contributor id, the
contributor's current wallet address, the stored `totalPoints`, and the
`createdAt` timestamp. -/
structure ContributionRow where
  userId : String
  userWalletAddress : String
  totalPoints : ℤ
  createdAt : ℤ
  deriving DecidableEq

/-- The `where createdAt: { [Op.between]: [startDate, endDate] }` condition of
the contribution queries in `calculateWeeklyRewards`
(`token-economy-service.ts`) and `calculateRewards` (`rewards-service.ts`).
SQL `BETWEEN` is inclusive at both endpoints. -/
def inWindow (startDate endDate : ℤ) (c : ContributionRow) : Bool :=
  decide (startDate ≤ c.createdAt) && decide (c.createdAt ≤ endDate)

/-- The set of contribution rows returned by the windowed `findAll` query. -/
def windowFetch (startDate endDate : ℤ) (cs : List ContributionRow) :
    List ContributionRow :=
  cs.filter (inWindow startDate endDate)

/-- One entry of the `userPointsMap` built by `calculateWeeklyRewards`
(`token-economy-service.ts` lines 215–228): contributor id, the wallet address
of the first contribution row seen for that contributor, and the running sum
of points. -/
structure GroupEntry where
  userId : String
  walletAddress : String
  points : ℤ
  deriving DecidableEq

/-- One step of the grouping loop: insert a contribution row into the map.
A JavaScript `Map` keeps insertion order, keeps the value stored at first
insertion (here the wallet address), and accumulates `points`. -/
def updateAdd : List GroupEntry → ContributionRow → List GroupEntry
  | [], c => [⟨c.userId, c.userWalletAddress, c.totalPoints⟩]
  | g :: rest, c =>
      if g.userId = c.userId then
        ⟨g.userId, g.walletAddress, g.points + c.totalPoints⟩ :: rest
      else
        g :: updateAdd rest c

/-- The `userPointsMap` of `calculateWeeklyRewards` after the
`contributions.forEach` loop. -/
def groupContributions (cs : List ContributionRow) : List GroupEntry :=
  cs.foldl updateAdd []

/-- The `totalPoints` computed by `calculateWeeklyRewards` (line 231): the sum
of the per-contributor point totals of the grouped map. -/
def aggTotalPoints (startDate endDate : ℤ) (cs : List ContributionRow) : ℤ :=
  ((groupContributions (windowFetch startDate endDate cs)).map
    (fun g => g.points)).sum

/-- The `UserRewardData` interface of `token-economy-service.ts`. -/
structure UserRewardData where
  userId : String
  walletAddress : String
  points : ℤ
  tokenAmount : ℤ
  deriving DecidableEq

/-- Function `calculateWeeklyRewards(startDate, endDate)` from
`token-economy-service.ts` lines 194–263: fetch the contributions in the
window, group them by user, and if the total is nonzero plan
`tokenAmount = max(floor(points * ratio), MIN_TOKENS_PER_USER)` per user with
`ratio = WEEKLY_REWARD_POOL / totalPoints`.  The source binds `totalPoints`
and `pointToTokenRatio` with local `const`s; they are inlined here. -/
def calculateWeeklyRewards (startDate endDate : ℤ) (cs : List ContributionRow) :
    List UserRewardData :=
  if aggTotalPoints startDate endDate cs = 0 then []
  else
    (groupContributions (windowFetch startDate endDate cs)).map fun g =>
      ⟨g.userId, g.walletAddress, g.points,
        max
          ⌊(g.points : ℚ) *
            (WEEKLY_REWARD_POOL / (aggTotalPoints startDate endDate cs : ℚ))⌋
          MIN_TOKENS_PER_USER⟩

/-- Lifecycle status of a weekly distribution run. The TypeScript code writes
the string values pending / processing / completed / partial / failed; the
source's string value for at-least-one-success-and-at-least-one-failure is
rendered by the constructor partialSuccess. -/
inductive Status where
  | pending
  | processing
  | completed
  | partialSuccess
  | failed
  deriving DecidableEq

/-- A row of the `WeeklyReward` table (`backend/models/index.ts`). -/
structure WeeklyRewardRow where
  id : ℕ
  weekStartDate : ℤ
  weekEndDate : ℤ
  totalPoints : ℤ
  totalTokens : ℚ
  pointToTokenRatio : ℚ
  status : Status
  distributionTxHash : Option String
  deriving DecidableEq

/-- A row of the `UserReward` table: `txHash` is `none` for a failed payout
(`UserReward.create({..., txHash: null})`). -/
structure UserRewardRow where
  userId : String
  weeklyRewardId : ℕ
  points : ℤ
  tokens : ℚ
  txHash : Option String
  deriving DecidableEq

/-- Mutable state threaded through the per-user loop of
`distributeWeeklyRewards`: the `UserReward` rows created so far, the transfer
instructions submitted to the ledger as (wallet, base-unit amount) pairs, and
the two counters `successfulTransactions` / `failedTransactions`. -/
structure LoopState where
  records : List UserRewardRow
  transfers : List (String × ℤ)
  successfulTransactions : ℕ
  failedTransactions : ℕ
  deriving DecidableEq

/-- One iteration of the `for (const reward of userRewards)` loop of
`distributeWeeklyRewards` (`token-economy-service.ts` lines 316–395):

* a falsy wallet address (modelled by the empty string) is skipped with a
  warning — the failed counter is incremented and no row is created;
* otherwise, if the ledger accepts the transfer, the transfer of
  `tokenAmount * 10 ^ TOKEN_DECIMALS` base units is submitted, a `UserReward`
  row with the transaction signature is created, and the success counter is
  incremented;
* otherwise (the `catch` branch: invalid address, ledger rejection, timeout)
  a `UserReward` row with `txHash: null` is created and the failed counter is
  incremented.

The loop body never throws past the `catch`, so the fold always continues
with the next contributor. -/
def processReward (ledger : String → Bool) (runId : ℕ) (st : LoopState)
    (r : UserRewardData) : LoopState :=
  if r.walletAddress = "" then
    { st with failedTransactions := st.failedTransactions + 1 }
  else if ledger r.walletAddress then
    { st with
      transfers :=
        st.transfers ++ [(r.walletAddress, r.tokenAmount * 10 ^ TOKEN_DECIMALS)],
      records :=
        st.records ++
          [⟨r.userId, runId, r.points, (r.tokenAmount : ℚ), some "sig"⟩],
      successfulTransactions := st.successfulTransactions + 1 }
  else
    { st with
      records :=
        st.records ++ [⟨r.userId, runId, r.points, (r.tokenAmount : ℚ), none⟩],
      failedTransactions := st.failedTransactions + 1 }

/-- The terminal status ternary of `distributeWeeklyRewards`
(`token-economy-service.ts` lines 397–404):
`successfulTransactions > 0 ? (failedTransactions > 0 ? 'partial' :
'completed') : 'failed'`. -/
def distributionStatus (successfulTransactions failedTransactions : ℕ) :
    Status :=
  if 0 < successfulTransactions then
    if 0 < failedTransactions then Status.partialSuccess
    else Status.completed
  else Status.failed

/-- The persisted backend state touched by distribution: the `WeeklyReward`
and `UserReward` tables plus the list of ledger transfers submitted so far.
`nextId` models the generation of fresh primary keys. -/
structure DB where
  weeklyRewards : List WeeklyRewardRow
  userRewards : List UserRewardRow
  transfers : List (String × ℤ)
  nextId : ℕ
  deriving DecidableEq

/-- The `TokenDistributionResult` interface of `token-economy-service.ts`
(the two `Date` fields are omitted; they merely echo the arguments). -/
structure TokenDistributionResult where
  success : Bool
  totalUsers : ℕ
  totalTokens : ℤ
  totalPoints : ℤ
  successfulTransactions : ℕ
  failedTransactions : ℕ
  deriving DecidableEq

/-- Function `distributeWeeklyRewards(startDate, endDate)` from
`token-economy-service.ts` lines 268–432.  It recomputes the plan with
`calculateWeeklyRewards`, returns early (success, no run created) on an empty
plan, creates a fresh `WeeklyReward` row, loops over the planned payouts with
`processReward`, and finally stores the terminal status
`successfulTransactions > 0 ? (failedTransactions > 0 ? partial : completed)
: failed` on the run.  The source creates the run row with status
`processing` before the loop and updates the same row afterwards; the
embedding appends the row with its final field values, which yields the same
final state.  No existing `UserReward` row is ever consulted: the source has
no idempotency check. -/
def distributeWeeklyRewards (ledger : String → Bool) (startDate endDate : ℤ)
    (cs : List ContributionRow) (db : DB) : DB × TokenDistributionResult :=
  let userRewards := calculateWeeklyRewards startDate endDate cs
  if userRewards.isEmpty then
    (db, ⟨true, 0, 0, 0, 0, 0⟩)
  else
    let totalTokens : ℤ := (userRewards.map (fun r => r.tokenAmount)).sum
    let totalPoints : ℤ := (userRewards.map (fun r => r.points)).sum
    let runId := db.nextId
    let loop := userRewards.foldl (processReward ledger runId) ⟨[], [], 0, 0⟩
    let finalStatus :=
      distributionStatus loop.successfulTransactions loop.failedTransactions
    let run : WeeklyRewardRow :=
      ⟨runId, startDate, endDate, totalPoints, (totalTokens : ℚ),
        WEEKLY_REWARD_POOL / (totalPoints : ℚ), finalStatus,
        some "batch_distribution"⟩
    (⟨db.weeklyRewards ++ [run], db.userRewards ++ loop.records,
        db.transfers ++ loop.transfers, db.nextId + 1⟩,
      ⟨0 < loop.successfulTransactions, userRewards.length, totalTokens,
        totalPoints, loop.successfulTransactions, loop.failedTransactions⟩)

/-- The status written by the `POST /rewards/distribution-complete` route
handler (`rewards-routes.ts` lines 92–126):
`successfulTransactions === totalUsers ? 'completed' : 'partial'`.
It never writes `failed`. -/
def distributionCompleteStatus (successfulTransactions totalUsers : ℤ) :
    Status :=
  if successfulTransactions = totalUsers then Status.completed
  else Status.partialSuccess

/-- One entry of the `userPoints` record built by `calculateRewards`
(`rewards-service.ts` lines 34–60); the `username` field carries no reward
information and is omitted. -/
structure RSUserEntry where
  userId : String
  walletAddress : String
  points : ℤ
  contributionCount : ℕ
  deriving DecidableEq

/-- The grouping step of `calculateRewards` in `rewards-service.ts`: same
first-wallet-wins, insertion-ordered accumulation as in
`token-economy-service.ts`, additionally counting contributions. -/
def updateAddRS : List RSUserEntry → ContributionRow → List RSUserEntry
  | [], c => [⟨c.userId, c.userWalletAddress, c.totalPoints, 1⟩]
  | g :: rest, c =>
      if g.userId = c.userId then
        ⟨g.userId, g.walletAddress, g.points + c.totalPoints,
          g.contributionCount + 1⟩ :: rest
      else
        g :: updateAddRS rest c

/-- Function `calculateRewards(startDate, endDate)` from `rewards-service.ts` lines
9–74: the per-user list and the grand total of points. -/
def calculateRewards (startDate endDate : ℤ) (cs : List ContributionRow) :
    List RSUserEntry × ℤ :=
  let users := (windowFetch startDate endDate cs).foldl updateAddRS []
  (users, (users.map (fun u => u.points)).sum)

/-- Function `createWeeklyReward(startDate, endDate, totalTokens)` from
`rewards-service.ts` lines 79–106: it throws
`'No contributions to reward for this period'` when the window has no points
or no users, and otherwise creates a `pending` run with ratio
`totalTokens / totalPoints`.  The thrown error is modelled with `Except`; the
created row's fresh id is irrelevant to the claims and fixed to 0. -/
def createWeeklyReward (startDate endDate : ℤ) (totalTokens : ℚ)
    (cs : List ContributionRow) : Except String WeeklyRewardRow :=
  let res := calculateRewards startDate endDate cs
  if res.2 = 0 ∨ res.1 = [] then
    Except.error "No contributions to reward for this period"
  else
    Except.ok
      ⟨0, startDate, endDate, res.2, totalTokens, totalTokens / (res.2 : ℚ),
        Status.pending, none⟩

/-- JavaScript `Math.round`: round half toward positive infinity. -/
def jsRound (q : ℚ) : ℤ := ⌊q + 1 / 2⌋

/-- Function `processUserReward(weeklyReward, userId, tokens, txHash)` from
`rewards-service.ts` lines 111–141: it creates a `UserReward` row whose
`points` field is `Math.round(tokens / weeklyReward.pointToTokenRatio)` and
whose `tokens` field is the confirmed token amount passed in. -/
def processUserReward (weeklyReward : WeeklyRewardRow) (userId : String)
    (tokens : ℚ) (txHash : String) : UserRewardRow :=
  ⟨userId, weeklyReward.id, jsRound (tokens / weeklyReward.pointToTokenRatio),
    tokens, some txHash⟩

lemma points_sum_updateAdd (acc : List GroupEntry) (c : ContributionRow) :
    ((updateAdd acc c).map (fun g => g.points)).sum
      = ((acc.map (fun g => g.points)).sum) + c.totalPoints := by
  induction acc with
  | nil => simp [updateAdd]
  | cons g rest ih =>
      by_cases h : g.userId = c.userId
      · simp [updateAdd, h]
        ring
      · simp [updateAdd, h, ih]
        ring

lemma points_sum_foldl (cs : List ContributionRow) (acc : List GroupEntry) :
    (((cs.foldl updateAdd acc).map (fun g => g.points)).sum)
      = ((acc.map (fun g => g.points)).sum) + ((cs.map
          (fun c => c.totalPoints)).sum) := by
  induction cs generalizing acc with
  | nil => simp
  | cons c rest ih =>
      simp only [List.foldl_cons, List.map_cons, List.sum_cons]
      rw [ih, points_sum_updateAdd]
      ring

/-- Grouping preserves the sum of points: the grand total computed from the
`userPointsMap` equals the plain sum of the fetched contributions' points. -/
lemma aggTotalPoints_eq_plain_sum (startDate endDate : ℤ)
    (cs : List ContributionRow) :
    aggTotalPoints startDate endDate cs
      = (((windowFetch startDate endDate cs).map
          (fun c => c.totalPoints)).sum) := by
  unfold aggTotalPoints groupContributions
  rw [points_sum_foldl]
  simp

/-- C2: for every contributor in the computed reward plan with positive
points, the planned token amount equals
`max(floor(points * ratio), minFloor)` with
`ratio = WEEKLY_REWARD_POOL / totalPoints`, hence every planned `tokenAmount`
is at least `MIN_TOKENS_PER_USER`. -/
theorem C2_planner_floor_guarantee (startDate endDate : ℤ)
    (cs : List ContributionRow) (r : UserRewardData)
    (hr : r ∈ calculateWeeklyRewards startDate endDate cs)
    (hpos : 0 < r.points) :
    r.tokenAmount =
      max
        ⌊(r.points : ℚ) *
          (WEEKLY_REWARD_POOL / (aggTotalPoints startDate endDate cs : ℚ))⌋
        MIN_TOKENS_PER_USER ∧
    MIN_TOKENS_PER_USER ≤ r.tokenAmount := by
  rw [calculateWeeklyRewards] at hr
  split at hr
  · simp at hr
  · obtain ⟨g, hg, rfl⟩ := List.mem_map.1 hr
    exact ⟨rfl, le_max_right _ _⟩

/-- Witness for C2 at a concrete window: two contributors with 100 and 50
points, pool 200000, so the ratio is 4000/3 and the first contributor is
planned `floor(100 * 4000/3) = 133333 ≥ 10` tokens. -/
theorem C2_planner_floor_guarantee_witness :
    (⟨"a", "wa", 100, 133333⟩ : UserRewardData) ∈
      calculateWeeklyRewards 0 10
        [⟨"a", "wa", 100, 3⟩, ⟨"b", "wb", 50, 4⟩] ∧
    (0 : ℤ) < 100 ∧
    MIN_TOKENS_PER_USER ≤
      (⟨"a", "wa", 100, 133333⟩ : UserRewardData).tokenAmount := by
  have hev : calculateWeeklyRewards 0 10
        [⟨"a", "wa", 100, 3⟩, ⟨"b", "wb", 50, 4⟩]
      = [⟨"a", "wa", 100, 133333⟩, ⟨"b", "wb", 50, 66666⟩] := by
    simp [calculateWeeklyRewards, aggTotalPoints, groupContributions,
      windowFetch, inWindow, updateAdd, WEEKLY_REWARD_POOL,
      MIN_TOKENS_PER_USER]
    norm_num
  have hm : (⟨"a", "wa", 100, 133333⟩ : UserRewardData) ∈
      calculateWeeklyRewards 0 10
        [⟨"a", "wa", 100, 3⟩, ⟨"b", "wb", 50, 4⟩] := by
    rw [hev]; simp
  refine ⟨hm, by norm_num, ?_⟩
  exact (C2_planner_floor_guarantee 0 10 _ _ hm (by norm_num)).2

/-- C7 (amended): the aggregation window is the closed interval
`[start, end]` — SQL `BETWEEN` is inclusive at both ends, so an event with
`createdAt` equal to `end` is included, not excluded. -/
theorem C7_window_is_closed_interval (startDate endDate : ℤ)
    (cs : List ContributionRow) (c : ContributionRow) :
    c ∈ windowFetch startDate endDate cs ↔
      c ∈ cs ∧ startDate ≤ c.createdAt ∧ c.createdAt ≤ endDate := by
  simp [windowFetch, inWindow, List.mem_filter, Bool.and_eq_true,
    decide_eq_true_eq, and_assoc]

/-- Counterexample to C7 as stated: a contribution with `createdAt` equal to
the window end (10) passes the fetch condition and produces a reward plan
entry, whereas a half-open window `[start, end)` would exclude it and yield
an empty plan. -/
theorem C7_boundary_event_included :
    inWindow 0 10 ⟨"u", "w", 100, 10⟩ = true ∧
    calculateWeeklyRewards 0 10 [⟨"u", "w", 100, 10⟩] ≠ [] := by
  constructor
  · decide
  · have hev : calculateWeeklyRewards 0 10 [⟨"u", "w", 100, 10⟩]
        = [⟨"u", "w", 100, 200000⟩] := by
      simp [calculateWeeklyRewards, aggTotalPoints, groupContributions,
        windowFetch, inWindow, updateAdd, WEEKLY_REWARD_POOL,
        MIN_TOKENS_PER_USER]
      norm_num
    rw [hev]; simp

/-- The result record of `calculatePoints` (`token-economy-service.ts` lines
45–128).  `basePoints` is sampled at random from the kind-specific range and
`qualityMultiplier` is sampled from [0.5, 3.0] at event-creation time in the
source; both samples enter here as arguments, as does the contributor's
current reputation multiplier. -/
structure PointsData where
  basePoints : ℤ
  qualityMultiplier : ℚ
  reputationMultiplier : ℚ
  demandMultiplier : ℚ
  totalPoints : ℤ
  deriving DecidableEq

/-- The demand multiplier computation of `calculatePoints` (lines 91–114):
average the demand multipliers of the associated tags, defaulting to 1.0 when
there are none. -/
def demandFromTags (tagMultipliers : List ℚ) : ℚ :=
  if tagMultipliers = [] then 1
  else tagMultipliers.sum / (tagMultipliers.length : ℚ)

/-- The deterministic core of `calculatePoints`: given the sampled base
points, the sampled quality multiplier, the contributor's reputation
multiplier and the tag demand multipliers, compute
`totalPoints = Math.floor(basePoints * quality * reputation * demand)`
(lines 116–119). -/
def calculatePoints (basePoints : ℤ) (qualityMultiplier reputationMultiplier : ℚ)
    (tagMultipliers : List ℚ) : PointsData :=
  ⟨basePoints, qualityMultiplier, reputationMultiplier,
    demandFromTags tagMultipliers,
    ⌊(basePoints : ℚ) * qualityMultiplier * reputationMultiplier *
      demandFromTags tagMultipliers⌋⟩

/-- The numeric fields stored on the `Contribution` row created by
`recordContribution` (lines 144–154): the four factors and the derived
`totalPoints`, all taken verbatim from the `calculatePoints` result. -/
structure ContributionRecord where
  basePoints : ℤ
  qualityMultiplier : ℚ
  reputationMultiplier : ℚ
  demandMultiplier : ℚ
  totalPoints : ℤ
  deriving DecidableEq

/-- Function `recordContribution` (lines 133–189), restricted to the `Contribution`
row it creates. -/
def recordContribution (basePoints : ℤ)
    (qualityMultiplier reputationMultiplier : ℚ) (tagMultipliers : List ℚ) :
    ContributionRecord :=
  let pointsData :=
    calculatePoints basePoints qualityMultiplier reputationMultiplier
      tagMultipliers
  ⟨pointsData.basePoints, pointsData.qualityMultiplier,
    pointsData.reputationMultiplier, pointsData.demandMultiplier,
    pointsData.totalPoints⟩

/-- The alternative reading C6 rules out: truncating after every factor
instead of once at the end. -/
def perFactorFloorPoints (basePoints : ℤ) (q r d : ℚ) : ℤ :=
  ⌊(⌊(⌊(basePoints : ℚ) * q⌋ : ℚ) * r⌋ : ℚ) * d⌋

/-- The mean of a list of rationals, as `reduce(...) / length`. -/
def listMean (l : List ℚ) : ℚ := l.sum / (l.length : ℚ)

/-- The reputation map described by the spec: linearly rescale the mean
quality multiplier from the quality domain [0.5, 3.0] to the reputation
domain [0.8, 1.5] and clamp to those bounds. -/
def reputationRescaleClamp (m : ℚ) : ℚ :=
  max 0.8 (min 1.5 (0.8 + (m - 0.5) * ((1.5 - 0.8) / (3.0 - 0.5))))

/-- Function `updateUserReputation(userId)` (`token-economy-service.ts` lines
529–574), as a function of the quality multipliers of the contributor's most
recent (at most 100) contributions.  Empty history returns the default 1.0
with no `User.update` call; otherwise the new multiplier
`max(0.8, min(1.5, (0.8 + (avgQuality - 0.5) * (0.7 / 2.5)) * (1 + 0/100)))`
is computed (the staking boost is 0 in this phase), persisted onto the user
(the `Option` component) and returned. -/
def updateUserReputation (qualities : List ℚ) : ℚ × Option ℚ :=
  if qualities = [] then (1, none)
  else
    let avgQuality := qualities.sum / (qualities.length : ℚ)
    let baseReputation := 0.8 + (avgQuality - 0.5) * (0.7 / 2.5)
    let stakingBoost : ℚ := 0
    let newReputation :=
      max 0.8 (min 1.5 (baseReputation * (1 + stakingBoost / 100)))
    (newReputation, some newReputation)

/-- The recomputed demand multiplier of `updateTagDemandMultipliers`
(`token-economy-service.ts` lines 613–620):
`1.0 + Math.min(1.5, totalContributions / 10)` when the tag had recent
contributions, `1.0` otherwise. -/
def newDemandMultiplier (totalContributions : ℕ) : ℚ :=
  if 0 < totalContributions then
    1 + min 1.5 ((totalContributions : ℚ) / 10)
  else 1

/-- A `Tag` row together with, per associated article, the number of its
contributions in the last 30 days (the inner `include` of the query in
`updateTagDemandMultipliers`). -/
structure TagRow where
  name : String
  demandMultiplier : ℚ
  articleRecentCounts : List ℕ
  deriving DecidableEq

/-- The per-tag count of recent contributions (lines 604–611). -/
def recentContributionCount (t : TagRow) : ℕ := t.articleRecentCounts.sum

/-- Function `updateTagDemandMultipliers()` (lines 580–634): recompute every tag's
demand multiplier and persist it only when it moved by more than 0.1,
returning the updated tag table and the number of updated tags. -/
def updateTagDemandMultipliers (tags : List TagRow) : List TagRow × ℕ :=
  tags.foldl
    (fun acc t =>
      let newMult := newDemandMultiplier (recentContributionCount t)
      if 0.1 < |newMult - t.demandMultiplier| then
        (acc.1 ++ [{ t with demandMultiplier := newMult }], acc.2 + 1)
      else
        (acc.1 ++ [t], acc.2))
    ([], 0)

/-- C6: the stored `totalPoints` of a recorded contribution equals the floor
of the full product of its four stored factors, and the floor is applied
once at the end — flooring after each factor is a genuinely different
function, as the second conjunct shows at base 1, quality 1/2, reputation 3,
demand 1. -/
theorem C6_scoring_floor_once :
    (∀ (basePoints : ℤ) (quality reputation : ℚ) (tagMultipliers : List ℚ),
      (recordContribution basePoints quality reputation
          tagMultipliers).totalPoints
        = ⌊((recordContribution basePoints quality reputation
              tagMultipliers).basePoints : ℚ) *
            (recordContribution basePoints quality reputation
              tagMultipliers).qualityMultiplier *
            (recordContribution basePoints quality reputation
              tagMultipliers).reputationMultiplier *
            (recordContribution basePoints quality reputation
              tagMultipliers).demandMultiplier⌋) ∧
    ⌊(1 : ℚ) * (1 / 2) * 3 * 1⌋ ≠ perFactorFloorPoints 1 (1 / 2) 3 1 := by
  constructor
  · intro basePoints quality reputation tagMultipliers
    rfl
  · have h1 : ⌊(1 : ℚ) * (1 / 2) * 3 * 1⌋ = 1 := by norm_num
    have h2 : perFactorFloorPoints 1 (1 / 2) 3 1 = 0 := by
      norm_num [perFactorFloorPoints]
    rw [h1, h2]
    norm_num

/-- C8: for a non-empty history the returned multiplier is the mean quality
multiplier linearly rescaled from [0.5, 3.0] into [0.8, 1.5] and clamped to
those bounds (and that value is persisted); the clamp keeps every possible
output inside [0.8, 1.5]; an empty history returns the default 1.0 with no
persisted update. -/
theorem C8_reputation_update_contract :
    (∀ qualities : List ℚ,
      updateUserReputation qualities
        = if qualities = [] then (1, none)
          else (reputationRescaleClamp (listMean qualities),
            some (reputationRescaleClamp (listMean qualities)))) ∧
    (∀ m : ℚ, 0.8 ≤ reputationRescaleClamp m ∧
      reputationRescaleClamp m ≤ 1.5) := by
  constructor
  · intro qualities
    by_cases h : qualities = []
    · simp [updateUserReputation, h]
    · have harg :
          (0.8 + (qualities.sum / (qualities.length : ℚ) - 0.5) * (0.7 / 2.5))
              * (1 + (0 : ℚ) / 100)
            = 0.8 + (qualities.sum / (qualities.length : ℚ) - 0.5) *
                ((1.5 - 0.8) / (3.0 - 0.5)) := by
        norm_num
      simp only [updateUserReputation, reputationRescaleClamp, listMean, h,
        if_false]
      rw [harg]
  · intro m
    refine ⟨le_max_left _ _, max_le (by norm_num) (min_le_left _ _)⟩

/-- C9: the recomputed tag demand multiplier is 1.0 for a tag with no
contributions in the last 30 days and `1.0 + min(1.5, recentCount / 10)`
otherwise, and it always lies in [1.0, 2.5]. -/
theorem C9_demand_update_formula (n : ℕ) :
    newDemandMultiplier n
      = (if n = 0 then 1 else 1 + min 1.5 ((n : ℚ) / 10)) ∧
    1 ≤ newDemandMultiplier n ∧ newDemandMultiplier n ≤ 2.5 := by
  rcases Nat.eq_zero_or_pos n with h | h
  · subst h
    refine ⟨by simp [newDemandMultiplier], by simp [newDemandMultiplier], ?_⟩
    simp [newDemandMultiplier]
    norm_num
  · have hne : n ≠ 0 := Nat.pos_iff_ne_zero.1 h
    have hform : newDemandMultiplier n = 1 + min 1.5 ((n : ℚ) / 10) := by
      simp [newDemandMultiplier, h]
    refine ⟨by simp [hform, hne], ?_, ?_⟩
    · rw [hform]
      have : (0 : ℚ) ≤ min 1.5 ((n : ℚ) / 10) :=
        le_min (by norm_num) (by positivity)
      linarith
    · rw [hform]
      have : min (1.5 : ℚ) ((n : ℚ) / 10) ≤ 1.5 := min_le_left _ _
      linarith

lemma points_sum_updateAddRS (acc : List RSUserEntry) (c : ContributionRow) :
    ((updateAddRS acc c).map (fun u => u.points)).sum
      = ((acc.map (fun u => u.points)).sum) + c.totalPoints := by
  induction acc with
  | nil => simp [updateAddRS]
  | cons u rest ih =>
      by_cases h : u.userId = c.userId
      · simp [updateAddRS, h]
        ring
      · simp [updateAddRS, h, ih]
        ring

lemma points_sum_foldlRS (cs : List ContributionRow) (acc : List RSUserEntry) :
    (((cs.foldl updateAddRS acc).map (fun u => u.points)).sum)
      = ((acc.map (fun u => u.points)).sum)
        + ((cs.map (fun c => c.totalPoints)).sum) := by
  induction cs generalizing acc with
  | nil => simp
  | cons c rest ih =>
      simp only [List.foldl_cons, List.map_cons, List.sum_cons]
      rw [ih, points_sum_updateAddRS]
      ring

/-- The grand total computed by `calculateRewards` in `rewards-service.ts`
equals the grand total computed by `calculateWeeklyRewards` in
`token-economy-service.ts`: both are the plain sum of the fetched
contributions' points. -/
lemma calculateRewards_total_eq (startDate endDate : ℤ)
    (cs : List ContributionRow) :
    (calculateRewards startDate endDate cs).2
      = aggTotalPoints startDate endDate cs := by
  rw [aggTotalPoints_eq_plain_sum]
  show ((List.foldl updateAddRS [] (windowFetch startDate endDate cs)).map
    (fun u => u.points)).sum = _
  rw [points_sum_foldlRS]
  simp

/-- C3 (amended): a window whose aggregated total is zero yields an empty
plan from `calculateWeeklyRewards`, and `distributeWeeklyRewards` then
leaves the database untouched (no `WeeklyReward` run row is created) and
reports success; but `createWeeklyReward` in `rewards-service.ts` treats the
same situation as an error and throws
`'No contributions to reward for this period'`. -/
theorem C3_zero_points_no_run (startDate endDate : ℤ) (totalTokens : ℚ)
    (cs : List ContributionRow) (ledger : String → Bool) (db : DB)
    (h : aggTotalPoints startDate endDate cs = 0) :
    calculateWeeklyRewards startDate endDate cs = [] ∧
    (distributeWeeklyRewards ledger startDate endDate cs db).1 = db ∧
    (distributeWeeklyRewards ledger startDate endDate cs db).2.success = true ∧
    createWeeklyReward startDate endDate totalTokens cs
      = Except.error "No contributions to reward for this period" := by
  have hcalc : calculateWeeklyRewards startDate endDate cs = [] := by
    simp [calculateWeeklyRewards, h]
  have htot : (calculateRewards startDate endDate cs).2 = 0 := by
    rw [calculateRewards_total_eq, h]
  refine ⟨hcalc, ?_, ?_, ?_⟩
  · simp [distributeWeeklyRewards, hcalc]
  · simp [distributeWeeklyRewards, hcalc]
  · simp [createWeeklyReward, htot]

/-- Counterexample to C3 as stated: on the empty window the
create-distribution path does raise an error instead of returning quietly. -/
theorem C3_counterexample_create_throws :
    createWeeklyReward 0 10 300 []
      = Except.error "No contributions to reward for this period" := by
  simp [createWeeklyReward, calculateRewards, windowFetch]

/-- The all-accepting ledger oracle: every submitted transfer succeeds. -/
def allSucceedLedger : String → Bool := fun _ => true

/-- An empty backend database. -/
def emptyDB : DB := ⟨[], [], [], 0⟩

/-- Witness for C3 at the concrete empty window. -/
theorem C3_zero_points_no_run_witness :
    calculateWeeklyRewards 0 10 [] = [] ∧
    (distributeWeeklyRewards allSucceedLedger 0 10 [] emptyDB).1 = emptyDB ∧
    (distributeWeeklyRewards allSucceedLedger 0 10 [] emptyDB).2.success
      = true ∧
    createWeeklyReward 0 10 300 []
      = Except.error "No contributions to reward for this period" :=
  C3_zero_points_no_run 0 10 300 [] allSucceedLedger emptyDB
    (by simp [aggTotalPoints, groupContributions, windowFetch])

/-- Every loop iteration increments exactly one of the two counters: no
planned payout is lost, and no failure stops the loop. -/
lemma processReward_counter (ledger : String → Bool) (runId : ℕ)
    (st : LoopState) (r : UserRewardData) :
    (processReward ledger runId st r).successfulTransactions
        + (processReward ledger runId st r).failedTransactions
      = st.successfulTransactions + st.failedTransactions + 1 := by
  unfold processReward
  split_ifs <;> simp <;> omega

/-- The whole per-user loop accounts for every planned payout: the final
counters sum to the initial counters plus the number of planned payouts. -/
lemma foldl_counters (ledger : String → Bool) (runId : ℕ)
    (rewards : List UserRewardData) (init : LoopState) :
    (rewards.foldl (processReward ledger runId) init).successfulTransactions
        + (rewards.foldl (processReward ledger runId) init).failedTransactions
      = init.successfulTransactions + init.failedTransactions
        + rewards.length := by
  induction rewards generalizing init with
  | nil => simp
  | cons r rest ih =>
      simp only [List.foldl_cons, List.length_cons]
      rw [ih, processReward_counter]
      ring

/-- C4 (amended): a payout whose ledger transfer fails with a present wallet
address is persisted as a `UserReward` row with a null transaction reference
and counted failed; a payout with a missing wallet address is only counted
failed, with no row persisted; and in either case the loop continues — the
counters account for every planned payout, so no single failure aborts the
run. -/
theorem C4_per_payout_failure_isolation :
    (∀ (ledger : String → Bool) (runId : ℕ) (st : LoopState)
        (r : UserRewardData),
      r.walletAddress ≠ "" → ledger r.walletAddress = false →
        processReward ledger runId st r
          = { st with
              records := st.records ++
                [⟨r.userId, runId, r.points, (r.tokenAmount : ℚ), none⟩],
              failedTransactions := st.failedTransactions + 1 }) ∧
    (∀ (ledger : String → Bool) (runId : ℕ) (st : LoopState)
        (r : UserRewardData),
      r.walletAddress = "" →
        processReward ledger runId st r
          = { st with failedTransactions := st.failedTransactions + 1 }) ∧
    (∀ (ledger : String → Bool) (runId : ℕ)
        (rewards : List UserRewardData) (init : LoopState),
      (rewards.foldl (processReward ledger runId) init).successfulTransactions
          + (rewards.foldl (processReward ledger runId)
              init).failedTransactions
        = init.successfulTransactions + init.failedTransactions
          + rewards.length) := by
  refine ⟨?_, ?_, foldl_counters⟩
  · intro ledger runId st r hw hl
    simp [processReward, hw, hl]
  · intro ledger runId st r hw
    simp [processReward, hw]

/-- Counterexample to C4 as stated: for a contributor whose wallet address is
missing, the run counts a failed transaction but persists no Payout Record at
all — there is no row with a null transaction reference. -/
theorem C4_counterexample_missing_wallet_no_record :
    ((distributeWeeklyRewards allSucceedLedger 0 10 [⟨"u2", "", 80, 5⟩]
        emptyDB).1).userRewards = [] ∧
    (distributeWeeklyRewards allSucceedLedger 0 10 [⟨"u2", "", 80, 5⟩]
        emptyDB).2.failedTransactions = 1 := by
  have hev : calculateWeeklyRewards 0 10 [⟨"u2", "", 80, 5⟩]
      = [⟨"u2", "", 80, 200000⟩] := by
    simp [calculateWeeklyRewards, aggTotalPoints, groupContributions,
      windowFetch, inWindow, updateAdd, WEEKLY_REWARD_POOL,
      MIN_TOKENS_PER_USER]
    norm_num
  constructor <;>
    simp [distributeWeeklyRewards, hev, processReward, emptyDB,
      allSucceedLedger]

/-- Witness for C4 at concrete inputs: a rejected transfer for wallet `w`, a
missing wallet, and a two-element loop. -/
theorem C4_per_payout_failure_isolation_witness :
    processReward (fun _ => false) 0 ⟨[], [], 0, 0⟩ ⟨"u", "w", 5, 7⟩
      = ⟨[⟨"u", 0, 5, (7 : ℚ), none⟩], [], 0, 1⟩ ∧
    processReward (fun _ => false) 0 ⟨[], [], 0, 0⟩ ⟨"u", "", 5, 7⟩
      = ⟨[], [], 0, 1⟩ ∧
    (([⟨"u", "w", 5, 7⟩, ⟨"v", "", 3, 10⟩] :
        List UserRewardData).foldl
          (processReward allSucceedLedger 0) ⟨[], [], 0, 0⟩).successfulTransactions
        + (([⟨"u", "w", 5, 7⟩, ⟨"v", "", 3, 10⟩] :
            List UserRewardData).foldl
              (processReward allSucceedLedger 0) ⟨[], [], 0, 0⟩).failedTransactions
      = 2 := by
  refine ⟨?_, ?_, ?_⟩
  · exact C4_per_payout_failure_isolation.1 (fun _ => false) 0
      ⟨[], [], 0, 0⟩ ⟨"u", "w", 5, 7⟩ (by decide) rfl
  · exact C4_per_payout_failure_isolation.2.1 (fun _ => false) 0
      ⟨[], [], 0, 0⟩ ⟨"u", "", 5, 7⟩ rfl
  · exact C4_per_payout_failure_isolation.2.2 allSucceedLedger 0
      [⟨"u", "w", 5, 7⟩, ⟨"v", "", 3, 10⟩] ⟨[], [], 0, 0⟩

/-- The three terminal-status equivalences, as facts about the status
ternary together with the counter invariant. -/
lemma distributionStatus_iffs (succ fail n : ℕ) (hn : 0 < n)
    (hsum : succ + fail = n) :
    (distributionStatus succ fail = Status.completed ↔ succ = n) ∧
    (distributionStatus succ fail = Status.partialSuccess ↔
      0 < succ ∧ 0 < fail) ∧
    (distributionStatus succ fail = Status.failed ↔ succ = 0) := by
  unfold distributionStatus
  split_ifs with hs hf <;> refine ⟨?_, ?_, ?_⟩ <;> simp <;> omega

/-- C5 (amended): for the distributor path (`distributeWeeklyRewards`), the
run row appended to the `WeeklyReward` table carries a terminal status that
is `completed` iff every planned payout succeeded, `partial` iff at least one
succeeded and at least one failed, and `failed` iff none succeeded; every
planned payout is accounted by exactly one of the two counters.  (The
`POST /rewards/distribution-complete` route finalizes a run differently —
see the counterexample.) -/
theorem C5_distributor_terminal_status (ledger : String → Bool)
    (startDate endDate : ℤ) (cs : List ContributionRow) (db : DB)
    (h : calculateWeeklyRewards startDate endDate cs ≠ []) :
    ∃ run : WeeklyRewardRow,
      (distributeWeeklyRewards ledger startDate endDate cs db).1.weeklyRewards
        = db.weeklyRewards ++ [run] ∧
      (distributeWeeklyRewards ledger startDate endDate
            cs db).2.successfulTransactions
          + (distributeWeeklyRewards ledger startDate endDate
              cs db).2.failedTransactions
        = (distributeWeeklyRewards ledger startDate endDate cs db).2.totalUsers ∧
      (run.status = Status.completed ↔
        (distributeWeeklyRewards ledger startDate endDate
            cs db).2.successfulTransactions
          = (distributeWeeklyRewards ledger startDate endDate
              cs db).2.totalUsers) ∧
      (run.status = Status.partialSuccess ↔
        0 < (distributeWeeklyRewards ledger startDate endDate
              cs db).2.successfulTransactions ∧
        0 < (distributeWeeklyRewards ledger startDate endDate
              cs db).2.failedTransactions) ∧
      (run.status = Status.failed ↔
        (distributeWeeklyRewards ledger startDate endDate
            cs db).2.successfulTransactions = 0) := by
  rcases hplan : calculateWeeklyRewards startDate endDate cs with _ | ⟨r0, rest⟩
  · exact absurd hplan h
  · have hsum : ((r0 :: rest).foldl (processReward ledger db.nextId)
          ⟨[], [], 0, 0⟩).successfulTransactions
        + ((r0 :: rest).foldl (processReward ledger db.nextId)
            ⟨[], [], 0, 0⟩).failedTransactions
        = (r0 :: rest).length := by
      simpa using foldl_counters ledger db.nextId (r0 :: rest) ⟨[], [], 0, 0⟩
    have hiffs := distributionStatus_iffs _ _ _ (by simp) hsum
    simp only [distributeWeeklyRewards, hplan, List.isEmpty_cons,
      Bool.false_eq_true, if_false]
    exact ⟨_, rfl, hsum, hiffs.1, hiffs.2.1, hiffs.2.2⟩

/-- Counterexample to C5 as stated: the `POST /rewards/distribution-complete`
route finalizes a run that reached the end of distribution with zero
successful payouts (out of 2) as `partial`, not `failed` — the handler writes
`successfulTransactions === totalUsers ? 'completed' : 'partial'` and never
writes `failed`. -/
theorem C5_counterexample_route_never_failed :
    distributionCompleteStatus 0 2 = Status.partialSuccess ∧
    distributionCompleteStatus 0 2 ≠ Status.failed := by
  constructor <;> decide

/-- Witness for C5 at a concrete run: one contributor, all transfers
accepted. -/
theorem C5_distributor_terminal_status_witness :
    ∃ run : WeeklyRewardRow,
      (distributeWeeklyRewards allSucceedLedger 0 10 [⟨"c5", "w5", 100, 5⟩]
          emptyDB).1.weeklyRewards
        = emptyDB.weeklyRewards ++ [run] ∧
      (distributeWeeklyRewards allSucceedLedger 0 10 [⟨"c5", "w5", 100, 5⟩]
            emptyDB).2.successfulTransactions
          + (distributeWeeklyRewards allSucceedLedger 0 10
              [⟨"c5", "w5", 100, 5⟩] emptyDB).2.failedTransactions
        = (distributeWeeklyRewards allSucceedLedger 0 10
            [⟨"c5", "w5", 100, 5⟩] emptyDB).2.totalUsers ∧
      (run.status = Status.completed ↔
        (distributeWeeklyRewards allSucceedLedger 0 10
            [⟨"c5", "w5", 100, 5⟩] emptyDB).2.successfulTransactions
          = (distributeWeeklyRewards allSucceedLedger 0 10
              [⟨"c5", "w5", 100, 5⟩] emptyDB).2.totalUsers) ∧
      (run.status = Status.partialSuccess ↔
        0 < (distributeWeeklyRewards allSucceedLedger 0 10
              [⟨"c5", "w5", 100, 5⟩] emptyDB).2.successfulTransactions ∧
        0 < (distributeWeeklyRewards allSucceedLedger 0 10
              [⟨"c5", "w5", 100, 5⟩] emptyDB).2.failedTransactions) ∧
      (run.status = Status.failed ↔
        (distributeWeeklyRewards allSucceedLedger 0 10
            [⟨"c5", "w5", 100, 5⟩] emptyDB).2.successfulTransactions = 0) := by
  refine C5_distributor_terminal_status allSucceedLedger 0 10
    [⟨"c5", "w5", 100, 5⟩] emptyDB ?_
  have hev : calculateWeeklyRewards 0 10 [⟨"c5", "w5", 100, 5⟩]
      = [⟨"c5", "w5", 100, 200000⟩] := by
    simp [calculateWeeklyRewards, aggTotalPoints, groupContributions,
      windowFetch, inWindow, updateAdd, WEEKLY_REWARD_POOL,
      MIN_TOKENS_PER_USER]
    norm_num
  rw [hev]
  simp

/-- The single contribution of C1's failing scenario: contributor `u1` with
wallet `w1` and 100 points inside the window. -/
def C1contributions : List ContributionRow := [⟨"u1", "w1", 100, 5⟩]

/-- C1: the claimed idempotent resume does not exist in the code.
`distributeWeeklyRewards` never consults existing `UserReward` rows: running
it a second time over the same window — after a first run that produced
N = 1 successful Payout Record — creates a second `WeeklyReward` run, a
duplicate success `UserReward` row for the same contributor (2 records
instead of the claimed 1), and submits one additional ledger transfer
(2 transfers in total instead of the claimed 1). -/
theorem C1_rerun_creates_duplicates :
    ((distributeWeeklyRewards allSucceedLedger 0 10 C1contributions
        emptyDB).1).userRewards.length = 1 ∧
    ((distributeWeeklyRewards allSucceedLedger 0 10 C1contributions
        emptyDB).1).transfers.length = 1 ∧
    ((distributeWeeklyRewards allSucceedLedger 0 10 C1contributions
        (distributeWeeklyRewards allSucceedLedger 0 10 C1contributions
          emptyDB).1).1).userRewards.length = 2 ∧
    ((distributeWeeklyRewards allSucceedLedger 0 10 C1contributions
        (distributeWeeklyRewards allSucceedLedger 0 10 C1contributions
          emptyDB).1).1).transfers.length = 2 ∧
    (((distributeWeeklyRewards allSucceedLedger 0 10 C1contributions
        (distributeWeeklyRewards allSucceedLedger 0 10 C1contributions
          emptyDB).1).1).userRewards.map (fun r => r.userId))
      = ["u1", "u1"] ∧
    (((distributeWeeklyRewards allSucceedLedger 0 10 C1contributions
        (distributeWeeklyRewards allSucceedLedger 0 10 C1contributions
          emptyDB).1).1).userRewards.map (fun r => r.txHash))
      = [some "sig", some "sig"] := by
  have hplan : calculateWeeklyRewards 0 10 C1contributions
      = [⟨"u1", "w1", 100, 200000⟩] := by
    simp [C1contributions, calculateWeeklyRewards, aggTotalPoints,
      groupContributions, windowFetch, inWindow, updateAdd,
      WEEKLY_REWARD_POOL, MIN_TOKENS_PER_USER]
    norm_num
  refine ⟨?_, ?_, ?_, ?_, ?_, ?_⟩ <;>
    simp [distributeWeeklyRewards, hplan, processReward, emptyDB,
      allSucceedLedger]

/-- The window data of C10's demonstration: contributor `u` has 1 aggregated
point, contributor `v` has 99999, so the run ratio is 2 and `u` receives the
minimum floor of 10 tokens. -/
def C10contributions : List ContributionRow :=
  [⟨"u", "wu", 1, 3⟩, ⟨"v", "wv", 99999, 4⟩]

/-- C10: the points persisted by `processUserReward` are
`Math.round(tokens / weeklyReward.pointToTokenRatio)`, derived from the
confirmed token amount and the run's ratio.  The second half demonstrates on
concrete data that this differs from the contributor's aggregated window
points: `u` aggregated 1 point but, being paid the 10-token minimum at ratio
2, is persisted with `round(10 / 2) = 5` points. -/
theorem C10_confirm_points_from_ratio :
    (∀ (weeklyReward : WeeklyRewardRow) (userId : String) (tokens : ℚ)
        (txHash : String),
      (processUserReward weeklyReward userId tokens txHash).points
        = jsRound (tokens / weeklyReward.pointToTokenRatio) ∧
      (processUserReward weeklyReward userId tokens txHash).tokens = tokens ∧
      (processUserReward weeklyReward userId tokens txHash).txHash
        = some txHash) ∧
    (calculateWeeklyRewards 0 10 C10contributions).head?
      = some ⟨"u", "wu", 1, 10⟩ ∧
    createWeeklyReward 0 10 200000 C10contributions
      = Except.ok ⟨0, 0, 10, 100000, 200000, 2, Status.pending, none⟩ ∧
    (processUserReward ⟨0, 0, 10, 100000, 200000, 2, Status.pending, none⟩
        "u" 10 "tx").points = 5 ∧
    (5 : ℤ) ≠ 1 := by
  refine ⟨fun weeklyReward userId tokens txHash => ⟨rfl, rfl, rfl⟩,
    ?_, ?_, ?_, by norm_num⟩
  · have hev : calculateWeeklyRewards 0 10 C10contributions
        = [⟨"u", "wu", 1, 10⟩, ⟨"v", "wv", 99999, 199998⟩] := by
      simp [C10contributions, calculateWeeklyRewards, aggTotalPoints,
        groupContributions, windowFetch, inWindow, updateAdd,
        WEEKLY_REWARD_POOL, MIN_TOKENS_PER_USER]
      norm_num
    rw [hev]
    rfl
  · simp [C10contributions, createWeeklyReward, calculateRewards,
      windowFetch, inWindow, updateAddRS]
    norm_num
  · norm_num [processUserReward, jsRound]
